import Mathlib

/-!
Verification of the record-identity resolution layer of
`exper-surrealdb-getting-record-id` (src/main.rs).

The program seeds one record into collection `building_tbl` with key
`"1234567890"` and address `"123 Main St"`, then exercises two retrieval
paths (whole-collection select, query execution) against four declared
record shapes, and the identity trait surface (`get_tbl`, `get_id`,
`get_tbl_id`) of the record identifier type.

The storage engine (SurrealDB) is an external collaborator; its observable
behaviour is modelled from the specification, with the concrete glyphs and
values pinned by the program's own assertions in `test_select`,
`test_query` and `test_select_thing_with_id_traits`.
-/

/-! ## Identifier value and identity trait surface -/

/-- Modelled from the spec: the key part of a record identifier
(`surrealdb::sql::Id`, not under src/). The program only ever constructs
string keys (`CREATE building_tbl SET id = $rid` with a string binding),
so only the string-keyed variant is representable here. -/
inductive RecordKey where
  | strand : String → RecordKey
deriving DecidableEq

/-- Modelled from the spec: a composite record identifier
(`surrealdb::sql::Thing`, not under src/): collection name plus key. -/
structure Thing where
  tb : String
  id : RecordKey
deriving DecidableEq

/-- Left reserved bracket glyph, U+27E8, as pinned by the assertion in
`test_select_thing_with_id_traits` (src/main.rs line 145). -/
def bracketL : Char := '⟨'

/-- Right reserved bracket glyph, U+27E9. -/
def bracketR : Char := '⟩'

/-- A key is classified as numeric when its text is a nonempty run of
ASCII digits; such keys are the ones the canonical rendering must
disambiguate from the `:` separator. -/
def isNumericKey (s : String) : Bool :=
  !s.data.isEmpty && s.data.all Char.isDigit

/-- Modelled from the spec: the raw (unbracketed) rendering of a key,
as `surrealdb::sql::Id::to_raw` returns it. -/
def RecordKey.to_raw : RecordKey → String
  | .strand s => s

/-- Modelled from the spec: the rendering of a key inside a canonical
identifier string; numeric-looking keys are wrapped in the reserved
bracket glyphs (not ASCII `<`/`>`). -/
def RecordKey.render : RecordKey → String
  | .strand s => if isNumericKey s then "⟨" ++ s ++ "⟩" else s

/-- Modelled from the spec: `surrealdb::sql::Thing::to_raw`, the canonical
`collection:key` rendering with bracket disambiguation. -/
def Thing.to_raw (t : Thing) : String :=
  t.tb ++ ":" ++ t.id.render

/-- `IdTraits::get_tbl_id` (src/main.rs lines 17-22): the combined
canonical string, delegated to `to_raw`. -/
def Thing.get_tbl_id (t : Thing) : String :=
  t.to_raw

/-- `IdTraits::get_id` (src/main.rs lines 24-26): the raw key rendering,
without the reserved brackets. -/
def Thing.get_id (t : Thing) : String :=
  t.id.to_raw

/-- `IdTraits::get_tbl` (src/main.rs lines 28-30): the collection name. -/
def Thing.get_tbl (t : Thing) : String :=
  t.tb

/-- The identifier of the single record seeded by `main`
(src/main.rs lines 169-177). -/
def seededThing : Thing :=
  ⟨"building_tbl", .strand "1234567890"⟩

/-! ## C1, C6, C7, C10: identity surface -/

/-- C1 (counterexample): the claim asserts `get_tbl_id` returns
`"building_tbl:⟦1234567890⟧"` with the U+27E6/U+27E7 glyphs, but the code
(pinned by the assertion at src/main.rs line 145) uses U+27E8/U+27E9. -/
theorem get_tbl_id_not_white_brackets :
    seededThing.get_tbl_id ≠ "building_tbl:⟦1234567890⟧" := by
  decide

/-- C1 (amended): for the seeded record, `get_tbl()` is `"building_tbl"`,
`get_id()` is `"1234567890"`, and `get_tbl_id()` is
`"building_tbl:⟨1234567890⟩"` with the reserved glyphs U+27E8/U+27E9
surrounding the key, because the key is classified as numeric. -/
theorem seeded_identity_surface :
    seededThing.get_tbl = "building_tbl" ∧
    seededThing.get_id = "1234567890" ∧
    seededThing.get_tbl_id = "building_tbl:⟨1234567890⟩" ∧
    isNumericKey "1234567890" = true ∧
    bracketL.toNat = 0x27E8 ∧ bracketR.toNat = 0x27E9 := by
  refine ⟨rfl, rfl, by decide, by decide, by decide, by decide⟩

/-- C6: for every collection name and numeric-classified key, the canonical
string is exactly the collection, the `:` separator, and the key surrounded
immediately by the reserved glyph pair U+27E8/U+27E9 — which are not the
ASCII characters `<` or `>`. -/
theorem numeric_key_bracket_invariant (tb s : String)
    (h : isNumericKey s = true) :
    Thing.get_tbl_id ⟨tb, .strand s⟩ = tb ++ ":" ++ ("⟨" ++ s ++ "⟩") ∧
    "⟨" = bracketL.toString ∧ "⟩" = bracketR.toString ∧
    bracketL ≠ '<' ∧ bracketR ≠ '>' ∧
    bracketL.toNat = 0x27E8 ∧ bracketR.toNat = 0x27E9 := by
  refine ⟨?_, by decide, by decide, by decide, by decide, by decide, by decide⟩
  simp [Thing.get_tbl_id, Thing.to_raw, RecordKey.render, h]

/-- C6 (witness): the bracket invariant instantiated at the seeded record. -/
theorem numeric_key_bracket_invariant_witness :
    isNumericKey "1234567890" = true ∧
    (Thing.get_tbl_id ⟨"building_tbl", .strand "1234567890"⟩ =
      "building_tbl" ++ ":" ++ ("⟨" ++ "1234567890" ++ "⟩") ∧
    "⟨" = bracketL.toString ∧ "⟩" = bracketR.toString ∧
    bracketL ≠ '<' ∧ bracketR ≠ '>' ∧
    bracketL.toNat = 0x27E8 ∧ bracketR.toNat = 0x27E9) :=
  ⟨by decide, numeric_key_bracket_invariant "building_tbl" "1234567890" (by decide)⟩

/-- C7: `get_id` always returns the bare key with no surrounding brackets,
even for numeric-classified keys; for the seeded record it is
`"1234567890"`. -/
theorem get_id_returns_bare_key :
    (∀ tb s : String, Thing.get_id ⟨tb, .strand s⟩ = s) ∧
    seededThing.get_id = "1234567890" :=
  ⟨fun _ _ => rfl, rfl⟩

/-- C10: for a numeric-classified key the combined canonical string is not
the plain concatenation `get_tbl ++ ":" ++ get_id`, because the reserved
glyphs appear only in the combined form. -/
theorem tbl_id_differs_from_plain_concat (tb s : String)
    (h : isNumericKey s = true) :
    Thing.get_tbl_id ⟨tb, .strand s⟩ ≠
      Thing.get_tbl ⟨tb, .strand s⟩ ++ ":" ++ Thing.get_id ⟨tb, .strand s⟩ := by
  intro heq
  have hlen := congrArg String.length heq
  simp only [Thing.get_tbl_id, Thing.to_raw, Thing.get_tbl, Thing.get_id,
    RecordKey.render, RecordKey.to_raw, h, if_true, String.length_append] at hlen
  have hL : ("⟨" : String).length = 1 := by decide
  have hR : ("⟩" : String).length = 1 := by decide
  omega

/-- C10 (witness): instantiated at the seeded record. -/
theorem tbl_id_differs_from_plain_concat_witness :
    isNumericKey "1234567890" = true ∧
    Thing.get_tbl_id ⟨"building_tbl", .strand "1234567890"⟩ ≠
      Thing.get_tbl ⟨"building_tbl", .strand "1234567890"⟩ ++ ":" ++
      Thing.get_id ⟨"building_tbl", .strand "1234567890"⟩ :=
  ⟨by decide, tbl_id_differs_from_plain_concat "building_tbl" "1234567890" (by decide)⟩

/-! ## Retrieval paths and schema projections -/

/-- A stored record of `building_tbl`: its internal identifier and its
`address` field, as created by `main` (src/main.rs lines 172-177). -/
structure StoredRecord where
  id : Thing
  address : String
deriving DecidableEq

/-- The engine-owned collection contents. -/
def Store := List StoredRecord

/-- The collection as seeded by `main`: exactly one record with key
`"1234567890"` and address `"123 Main St"`. -/
def seededStore : Store :=
  [⟨seededThing, "123 Main St"⟩]

/-- The fields a single retrieved row surfaces to deserialization: the
internal identifier, the optional computed `rid` alias, and `address`. -/
structure Row where
  id : Thing
  rid : Option String
  address : String
deriving DecidableEq

/-- Modelled from the spec: the row surfaced by the whole-collection
select path (`db.select("building_tbl")`): structural fields only, the
computed identity alias is never present. -/
def mkSelectRow (r : StoredRecord) : Row :=
  ⟨r.id, none, r.address⟩

/-- Modelled from the spec: the row surfaced by the query path for
`SELECT * FROM building_tbl`, optionally extended with
`meta::id(id) AS rid` when `withRid` is true; `meta::id` is the
identity-derivation expression yielding the bare key. -/
def mkQueryRow (withRid : Bool) (r : StoredRecord) : Row :=
  ⟨r.id, if withRid then some r.id.get_id else none, r.address⟩

/-- Modelled from the spec: the select retrieval path, reading the store
and returning it unchanged (engine reads do not mutate the collection). -/
def selectRows (db : Store) : List Row × Store :=
  (db.map mkSelectRow, db)

/-- Modelled from the spec: the query retrieval path, reading the store
and returning it unchanged. -/
def queryRows (withRid : Bool) (db : Store) : List Row × Store :=
  (db.map (mkQueryRow withRid), db)

/-- `BuildingWithRidOptionString` (src/main.rs lines 45-49): the
identity-optional shape. -/
structure BuildingWithRidOptionString where
  rid : Option String
  address : String
deriving DecidableEq

/-- `BuildingWithRidString` (src/main.rs lines 39-43): the
identity-required shape. -/
structure BuildingWithRidString where
  rid : String
  address : String
deriving DecidableEq

/-- `Building` (src/main.rs lines 51-54): the identity-absent shape. -/
structure Building where
  address : String
deriving DecidableEq

/-- `BuildingWithThing` (src/main.rs lines 33-37): the shape embedding the
raw identifier. -/
structure BuildingWithThing where
  id : Thing
  address : String
deriving DecidableEq

/-- Typed deserialization failure; the required-identity failure carries
the name of the absent field (the engine reports `missing field`). -/
inductive DeserializeError where
  | missingField : String → DeserializeError
deriving DecidableEq

/-- Deserializing a row into the identity-optional shape: binds `none`
when the alias is absent, `some` when present; never fails on absence. -/
def deserializeRidOption (row : Row) : BuildingWithRidOptionString :=
  ⟨row.rid, row.address⟩

/-- Deserializing a row into the identity-required shape: fails with a
typed missing-field error when the alias is absent, never coercing a
default value. -/
def deserializeRidString (row : Row) : Except DeserializeError BuildingWithRidString :=
  match row.rid with
  | some s => .ok ⟨s, row.address⟩
  | none => .error (.missingField "rid")

/-- Deserializing a row into the identity-absent shape: any surfaced
identifier value is silently dropped. -/
def deserializeBuilding (row : Row) : Building :=
  ⟨row.address⟩

/-- Deserializing a row into the identifier-embedding shape. -/
def deserializeThing (row : Row) : BuildingWithThing :=
  ⟨row.id, row.address⟩

/-- The select path materialized into the identity-required shape, failing
as a whole when any row lacks the alias (src/main.rs lines 72-82). -/
def selectRidString (db : Store) : Except DeserializeError (List BuildingWithRidString) :=
  (selectRows db).1.mapM deserializeRidString

/-- The query path materialized into the identity-required shape. -/
def queryRidString (withRid : Bool) (db : Store) :
    Except DeserializeError (List BuildingWithRidString) :=
  (queryRows withRid db).1.mapM deserializeRidString

/-! ## C2, C3, C4, C5: path reconciliation -/

/-- C2: the whole-collection path always binds the identity-optional field
to `none`, a query omitting the derivation expression surfaces the same
rows as the select path, and on the seeded collection both yield
`rid = none` and `address = "123 Main St"`. -/
theorem select_and_plain_query_rid_none :
    (∀ r : StoredRecord, (deserializeRidOption (mkSelectRow r)).rid = none) ∧
    (∀ r : StoredRecord, mkQueryRow false r = mkSelectRow r) ∧
    (selectRows seededStore).1.map deserializeRidOption =
      [⟨none, "123 Main St"⟩] ∧
    (queryRows false seededStore).1.map deserializeRidOption =
      [⟨none, "123 Main St"⟩] :=
  ⟨fun _ => rfl, fun _ => rfl, rfl, rfl⟩

/-- C3: the query requesting `meta::id(id) AS rid` surfaces the bare key
into the identity-optional shape; on the seeded collection the result is
`rid = some "1234567890"`, `address = "123 Main St"` (src/main.rs
lines 99-108). -/
theorem query_with_derivation_surfaces_rid :
    (∀ r : StoredRecord,
      (deserializeRidOption (mkQueryRow true r)).rid = some r.id.get_id) ∧
    (queryRows true seededStore).1.map deserializeRidOption =
      [⟨some "1234567890", "123 Main St"⟩] :=
  ⟨fun _ => rfl, rfl⟩

/-- C4: the identity-required shape fails with a typed missing-field error
on every row of either path whenever the derivation expression was not
requested, and succeeds only when it was; on the seeded collection both
expression-free paths fail with `missingField "rid"`. -/
theorem required_rid_fails_without_derivation :
    (∀ r : StoredRecord,
      deserializeRidString (mkSelectRow r) = .error (.missingField "rid")) ∧
    (∀ r : StoredRecord,
      deserializeRidString (mkQueryRow false r) = .error (.missingField "rid")) ∧
    selectRidString seededStore = .error (.missingField "rid") ∧
    queryRidString false seededStore = .error (.missingField "rid") ∧
    queryRidString true seededStore = .ok [⟨"1234567890", "123 Main St"⟩] :=
  ⟨fun _ => rfl, fun _ => rfl, rfl, rfl, rfl⟩

/-- C5: the identity-absent shape deserializes successfully from either
path with only the plain `address` field populated, regardless of whether
the derivation expression was requested; the stored identifier is
dropped. -/
theorem absent_rid_shape_succeeds :
    (∀ r : StoredRecord, deserializeBuilding (mkSelectRow r) = ⟨r.address⟩) ∧
    (∀ (b : Bool) (r : StoredRecord),
      deserializeBuilding (mkQueryRow b r) = ⟨r.address⟩) ∧
    (selectRows seededStore).1.map deserializeBuilding = [⟨"123 Main St"⟩] ∧
    (queryRows false seededStore).1.map deserializeBuilding = [⟨"123 Main St"⟩] ∧
    (queryRows true seededStore).1.map deserializeBuilding = [⟨"123 Main St"⟩] :=
  ⟨fun _ => rfl, fun _ _ => rfl, rfl, rfl, rfl⟩

/-! ## C9: idempotence of the verification run -/

deriving instance DecidableEq for Except

/-- The concrete observations of one full verification run: the three
select materializations of `test_select`, the four query materializations
of `test_query`, and the identifier-embedding select of
`test_select_thing_with_id_traits`. -/
structure RunReport where
  selRidOption : List BuildingWithRidOptionString
  selPlain : List Building
  selRidString : Except DeserializeError (List BuildingWithRidString)
  qNoRid : List BuildingWithRidOptionString
  qWithRid : List BuildingWithRidOptionString
  qPlainNoRid : List Building
  qPlainWithRid : List Building
  selThing : List BuildingWithThing
deriving DecidableEq

/-- One full verification run, issuing the engine calls of `main`
sequentially against the store and threading the engine state through
every call (src/main.rs lines 160-185). -/
def runVerification (db : Store) : RunReport × Store :=
  let (rows1, db) := selectRows db
  let (rows2, db) := selectRows db
  let (rows3, db) := selectRows db
  let (rows4, db) := queryRows false db
  let (rows5, db) := queryRows true db
  let (rows6, db) := queryRows false db
  let (rows7, db) := queryRows true db
  let (rows8, db) := selectRows db
  (⟨rows1.map deserializeRidOption,
    rows2.map deserializeBuilding,
    rows3.mapM deserializeRidString,
    rows4.map deserializeRidOption,
    rows5.map deserializeRidOption,
    rows6.map deserializeBuilding,
    rows7.map deserializeBuilding,
    rows8.map deserializeThing⟩, db)

/-- C9: a verification run leaves the collection unchanged, so repeated
runs produce identical reports; on the seeded collection the report is the
fixed one below, with every materialization observing one record, the
address `"123 Main St"`, and the documented identity-field
presence/absence. -/
theorem verification_runs_idempotent :
    (∀ db : Store, (runVerification db).2 = db) ∧
    (∀ db : Store,
      (runVerification ((runVerification db).2)).1 = (runVerification db).1) ∧
    runVerification seededStore =
      (⟨[⟨none, "123 Main St"⟩],
        [⟨"123 Main St"⟩],
        .error (.missingField "rid"),
        [⟨none, "123 Main St"⟩],
        [⟨some "1234567890", "123 Main St"⟩],
        [⟨"123 Main St"⟩],
        [⟨"123 Main St"⟩],
        [⟨seededThing, "123 Main St"⟩]⟩, seededStore) :=
  ⟨fun _ => rfl, fun _ => rfl, rfl⟩

/-! ## C8: the spec's Identifier Value parser/printer

The repository contains no parse function for canonical identifier
strings; the parser and the printer below are modelled from the spec
(spec sections 4.1 and 6): `canonical_string` is
`collection + ":" + key-rendering`, with the key bracket-wrapped in the
reserved glyph pair when Numeric; `parse` splits on the first `:`,
unwraps the reserved brackets when present, and classifies the inner text
as Numeric exactly when it is a valid integer literal. Structured keys
are out of scope (spec section 9: their rendering is unspecified), so the
key union carries only the Textual and Numeric variants, and `parse`
returns `none` where the spec would classify a bracket-wrapped
non-integer remainder as Structured. -/

/-- Modelled from the spec: the exercised variants of the `KeyValue`
tagged union. -/
inductive KeyValue where
  | Textual : String → KeyValue
  | Numeric : Int → KeyValue
deriving DecidableEq

/-- Modelled from the spec: an Identifier Value, a collection name plus a
key. -/
structure IdentifierValue where
  collection : String
  key : KeyValue
deriving DecidableEq

/-- The decimal digit value of a character, when it is one of `0`-`9`. -/
def charDigit? (c : Char) : Option Nat :=
  if '0' ≤ c ∧ c ≤ '9' then some (c.toNat - '0'.toNat) else none

/-- The decimal digits of a natural number, least significant first
(empty for zero). -/
def natDigitsRev (n : Nat) : List Char :=
  if h : n = 0 then []
  else Nat.digitChar (n % 10) :: natDigitsRev (n / 10)
decreasing_by exact Nat.div_lt_self (Nat.pos_of_ne_zero h) (by decide)

/-- The decimal rendering of a natural number. -/
def renderNat (n : Nat) : List Char :=
  if n = 0 then ['0'] else (natDigitsRev n).reverse

/-- The integer-literal rendering of an integer: a leading minus sign for
negative values, then the decimal digits. -/
def renderInt (i : Int) : List Char :=
  if i < 0 then '-' :: renderNat i.natAbs else renderNat i.natAbs

/-- Parse a run of decimal digits most significant first, extending the
accumulator; fails on any non-digit. -/
def parseNatAux : List Char → Nat → Option Nat
  | [], acc => some acc
  | c :: cs, acc =>
    match charDigit? c with
    | some d => parseNatAux cs (10 * acc + d)
    | none => none

/-- Parse a nonempty run of decimal digits. -/
def parseNat? (l : List Char) : Option Nat :=
  if l = [] then none else parseNatAux l 0

/-- Recognize and parse a valid integer literal: an optional leading
minus sign followed by a nonempty run of decimal digits. -/
def parseInt? (l : List Char) : Option Int :=
  match l with
  | [] => none
  | c :: cs =>
    if c = '-' then (parseNat? cs).map (fun n : Nat => -(n : Int))
    else (parseNat? (c :: cs)).map (fun n : Nat => (n : Int))

/-- The reserved bracket glyph pair of the spec's canonical format. -/
def specBracketL : Char := '⟦'

/-- The right glyph of the spec's reserved pair. -/
def specBracketR : Char := '⟧'

/-- Unwrap a remainder that is bracket-wrapped with the reserved glyph
pair; `none` when it is not wrapped. -/
def unwrapBrackets (l : List Char) : Option (List Char) :=
  match l with
  | [] => none
  | c :: cs =>
    if c = specBracketL ∧ cs.getLast? = some specBracketR then some cs.dropLast
    else none

/-- Split a character list at the first `:`, returning the parts before
and after it; `none` when no `:` occurs. -/
def splitOnColon : List Char → Option (List Char × List Char)
  | [] => none
  | c :: cs =>
    if c = ':' then some ([], cs)
    else
      match splitOnColon cs with
      | some (pre, post) => some (c :: pre, post)
      | none => none

/-- Modelled from the spec: the key rendering inside a canonical string;
Numeric keys are wrapped in the reserved glyph pair. -/
def KeyValue.render : KeyValue → List Char
  | .Textual s => s.data
  | .Numeric n => specBracketL :: (renderInt n ++ [specBracketR])

/-- Modelled from the spec: `canonical_string`, the
`collection + ":" + key-rendering` printer. -/
def canonical_string (v : IdentifierValue) : String :=
  ⟨v.collection.data ++ ':' :: v.key.render⟩

/-- Modelled from the spec: `parse`. Splits on the first `:`; a
bracket-wrapped remainder is classified Numeric when its inner text is a
valid integer literal (a bracket-wrapped non-integer would be Structured,
unrepresentable here, so it yields `none`); an unwrapped remainder is
Textual. `none` also covers `MalformedIdentifier` (no separator). -/
def parse (s : String) : Option IdentifierValue :=
  match splitOnColon s.data with
  | none => none
  | some (pre, post) =>
    match unwrapBrackets post with
    | some inner =>
      match parseInt? inner with
      | some n => some ⟨⟨pre⟩, .Numeric n⟩
      | none => none
    | none => some ⟨⟨pre⟩, .Textual ⟨post⟩⟩

/-- A constructibility guard: the key, when Textual, is not itself
wrapped in the reserved glyph pair (such a key would be re-classified on
parsing). -/
def keyNotBracketWrapped (v : IdentifierValue) : Bool :=
  match v.key with
  | .Textual s => (unwrapBrackets s.data).isNone
  | .Numeric _ => true

theorem natDigitsRev_zero : natDigitsRev 0 = [] := by
  unfold natDigitsRev
  rfl

theorem natDigitsRev_pos (n : Nat) (h : ¬n = 0) :
    natDigitsRev n = Nat.digitChar (n % 10) :: natDigitsRev (n / 10) := by
  conv_lhs => rw [natDigitsRev]
  rw [dif_neg h]

theorem charDigit?_digitChar (d : Nat) (h : d < 10) :
    charDigit? (Nat.digitChar d) = some d := by
  interval_cases d <;> decide

theorem natDigitsRev_digits (n : Nat) :
    ∀ c ∈ natDigitsRev n, (charDigit? c).isSome := by
  induction n using Nat.strong_induction_on with
  | h n ih =>
    intro c hc
    by_cases h : n = 0
    · subst h
      rw [natDigitsRev_zero] at hc
      simp at hc
    · rw [natDigitsRev_pos n h] at hc
      rcases List.mem_cons.mp hc with h1 | h2
      · subst h1
        rw [charDigit?_digitChar (n % 10) (by omega)]
        rfl
      · exact ih (n / 10) (Nat.div_lt_self (Nat.pos_of_ne_zero h) (by decide)) c h2

theorem parseNatAux_append (l1 l2 : List Char) :
    ∀ acc, parseNatAux (l1 ++ l2) acc =
      (parseNatAux l1 acc).bind (fun a => parseNatAux l2 a) := by
  induction l1 with
  | nil => intro acc; simp [parseNatAux]
  | cons c cs ih =>
    intro acc
    simp only [List.cons_append, parseNatAux]
    cases hc : charDigit? c with
    | some d => simp [ih]
    | none => simp

theorem parseNatAux_digitsRev (n : Nat) :
    ∀ acc, parseNatAux ((natDigitsRev n).reverse) acc =
      some (acc * 10 ^ (natDigitsRev n).length + n) := by
  induction n using Nat.strong_induction_on with
  | h n ih =>
    intro acc
    by_cases h : n = 0
    · subst h
      rw [natDigitsRev_zero]
      simp [parseNatAux]
    · rw [natDigitsRev_pos n h, List.reverse_cons, parseNatAux_append,
        ih (n / 10) (Nat.div_lt_self (Nat.pos_of_ne_zero h) (by decide)) acc]
      simp only [Option.some_bind, parseNatAux,
        charDigit?_digitChar (n % 10) (by omega : n % 10 < 10), List.length_cons]
      congr 1
      have e1 : 10 * (acc * 10 ^ (natDigitsRev (n / 10)).length + n / 10) + n % 10 =
          acc * 10 ^ ((natDigitsRev (n / 10)).length + 1) +
            (10 * (n / 10) + n % 10) := by ring
      have e2 : 10 * (n / 10) + n % 10 = n := by omega
      rw [e1, e2]

theorem parseNat?_renderNat (n : Nat) : parseNat? (renderNat n) = some n := by
  by_cases h : n = 0
  · subst h; decide
  · have hne : (natDigitsRev n).reverse ≠ [] := by
      have hcons : natDigitsRev n ≠ [] := by
        rw [natDigitsRev_pos n h]; simp
      simpa using hcons
    rw [renderNat, if_neg h, parseNat?, if_neg hne, parseNatAux_digitsRev n 0]
    simp

theorem renderNat_head_digit (n : Nat) :
    ∃ c cs, renderNat n = c :: cs ∧ (charDigit? c).isSome := by
  by_cases h : n = 0
  · exact ⟨'0', [], by subst h; rfl, by decide⟩
  · cases hl : (natDigitsRev n).reverse with
    | nil =>
      exfalso
      have hcons : natDigitsRev n ≠ [] := by
        rw [natDigitsRev_pos n h]; simp
      exact hcons (by simpa using hl)
    | cons c cs =>
      refine ⟨c, cs, by rw [renderNat, if_neg h, hl], ?_⟩
      have hc : c ∈ natDigitsRev n := by
        have hm : c ∈ (natDigitsRev n).reverse := by
          rw [hl]; exact List.mem_cons_self c cs
        simpa [List.mem_reverse] using hm
      exact natDigitsRev_digits n c hc

theorem parseInt?_renderInt (i : Int) : parseInt? (renderInt i) = some i := by
  by_cases h : i < 0
  · rw [renderInt, if_pos h]
    have h0 : ((-i).natAbs : Int) = -i := Int.natAbs_of_nonneg (by omega)
    rw [Int.natAbs_neg] at h0
    simp [parseInt?, parseNat?_renderNat, h0]
  · rw [renderInt, if_neg h]
    obtain ⟨c, cs, hl, hd⟩ := renderNat_head_digit i.natAbs
    rw [hl]
    have hcne : c ≠ '-' := by
      intro hc
      rw [hc, show charDigit? '-' = none from by decide] at hd
      simp at hd
    simp only [parseInt?, if_neg hcne]
    rw [← hl, parseNat?_renderNat]
    simp only [Option.map_some']
    rw [Int.natAbs_of_nonneg (by omega : (0:Int) ≤ i)]

theorem splitOnColon_append (pre post : List Char) (h : ':' ∉ pre) :
    splitOnColon (pre ++ ':' :: post) = some (pre, post) := by
  induction pre with
  | nil => simp [splitOnColon]
  | cons c cs ih =>
    have hc : c ≠ ':' := by
      intro hc
      exact h (hc ▸ List.mem_cons_self c cs)
    have hcs : ':' ∉ cs := fun hm => h (List.mem_cons_of_mem c hm)
    simp [splitOnColon, hc, ih hcs]

theorem unwrapBrackets_wrap (inner : List Char) :
    unwrapBrackets (specBracketL :: (inner ++ [specBracketR])) = some inner := by
  simp [unwrapBrackets, List.getLast?_concat, List.dropLast_concat]

/-- C8 (amended): round trip holds for every constructible Identifier
Value whose collection name contains no `:` separator and whose Textual
key is not itself wrapped in the reserved glyph pair:
`parse (canonical_string v) = some v`. -/
theorem parse_canonical_roundtrip (v : IdentifierValue)
    (hcol : ':' ∉ v.collection.data)
    (hkey : keyNotBracketWrapped v = true) :
    parse (canonical_string v) = some v := by
  obtain ⟨col, key⟩ := v
  have hdata : (canonical_string ⟨col, key⟩).data = col.data ++ ':' :: key.render :=
    rfl
  simp only [parse, hdata, splitOnColon_append col.data key.render hcol]
  cases key with
  | Textual s =>
    have hw : unwrapBrackets s.data = none := by
      simpa [keyNotBracketWrapped, Option.isNone_iff_eq_none] using hkey
    simp only [KeyValue.render, hw]
  | Numeric n =>
    simp only [KeyValue.render, unwrapBrackets_wrap, parseInt?_renderInt]

/-- C8 (witness): the round trip at the seeded identifier, whose key is
Numeric `1234567890`. -/
theorem parse_canonical_roundtrip_witness :
    (':' ∉ ("building_tbl" : String).data) ∧
    keyNotBracketWrapped ⟨"building_tbl", .Numeric 1234567890⟩ = true ∧
    parse (canonical_string ⟨"building_tbl", .Numeric 1234567890⟩) =
      some ⟨"building_tbl", .Numeric 1234567890⟩ :=
  ⟨by decide, rfl,
    parse_canonical_roundtrip ⟨"building_tbl", .Numeric 1234567890⟩ (by decide) rfl⟩

/-- C8 (counterexample): the round-trip law fails as stated for all
constructible values: the Textual key `"⟦7⟧"` under the collection
`"a:b"` prints to `"a:b:⟦7⟧"`, which parses to the different value
`⟨"a", Textual "b:⟦7⟧"⟩`. -/
theorem parse_canonical_roundtrip_fails_unrestricted :
    parse (canonical_string ⟨"a:b", .Textual "⟦7⟧"⟩) ≠
      some ⟨"a:b", .Textual "⟦7⟧"⟩ := by
  decide
